import Mathlib

/-!
Shallow embedding of the Component Version & Repository Synchronization
Manager of `visp-deploy.py` (classes `GitRepository` and `ComponentConfig`,
functions `update_repo`, `check_repositories_status`, `lock_components`,
`unlock_components`, `rollback_components`).

Python dictionaries are modelled as association lists with string keys
(`dictGet` is `d.get(k)` / `k in d`, `dictSet` is `d[k] = v`).  JSON scalar
values stored in a component entry are modelled by `JVal`.
-/

namespace VispDeploy

/-- A JSON scalar value as stored in one field of a component entry of
`versions.json` (strings, booleans, `null`). -/
inductive JVal
  | str (s : String)
  | bool (b : Bool)
  | null
deriving DecidableEq, Repr

/-- Python truthiness of a `JVal` (`if locked:` in `ComponentConfig.rollback`):
`None` and the empty string are falsy. -/
def JVal.truthy : JVal → Bool
  | .str s => !(s = "")
  | .bool b => b
  | .null => false

/-- Dictionary read, `d.get(k)`: the value at the first matching key. -/
def dictGet {α : Type} : List (String × α) → String → Option α
  | [], _ => none
  | p :: rest, k => if p.1 = k then some p.2 else dictGet rest k

/-- Dictionary write, `d[k] = v`: replace the value at an existing key,
append the pair when the key is absent. -/
def dictSet {α : Type} : List (String × α) → String → α → List (String × α)
  | [], k, v => [(k, v)]
  | p :: rest, k, v => if p.1 = k then (k, v) :: rest else p :: dictSet rest k v

/-- One component entry: field name → JSON value (e.g. `version`,
`locked_version`, `url`, `npm_install`, `npm_build`). -/
abbrev Entry := List (String × JVal)

/-- The in-memory `ComponentConfig.config` mapping: component name → entry. -/
abbrev Config := List (String × Entry)

/-! ### ComponentConfig accessors and mutators (visp-deploy.py lines 347-411) -/

/-- Method `get_component(name)`: `self.config.get(name)`. -/
def getComponent (cfg : Config) (name : String) : Option Entry :=
  dictGet cfg name

/-- Method `get_version(name)`: `self.config.get(name, {}).get("version", "latest")`. -/
def getVersion (cfg : Config) (name : String) : JVal :=
  (dictGet ((dictGet cfg name).getD []) "version").getD (JVal.str "latest")

/-- Method `get_locked_version(name)`: `self.config.get(name, {}).get("locked_version")`. -/
def getLockedVersion (cfg : Config) (name : String) : Option JVal :=
  dictGet ((dictGet cfg name).getD []) "locked_version"

/-- Method `lock(name, commit_sha)`: when the component exists, set both `version`
and `locked_version` to the SHA and return `True`; otherwise `False`. -/
def lock (cfg : Config) (name sha : String) : Config × Bool :=
  match dictGet cfg name with
  | some e =>
      (dictSet cfg name
        (dictSet (dictSet e "version" (JVal.str sha)) "locked_version" (JVal.str sha)),
       true)
  | none => (cfg, false)

/-- Method `unlock(name)`: when the component exists, set `version` to `"latest"`
(`locked_version` is deliberately left untouched) and return `True`. -/
def unlock (cfg : Config) (name : String) : Config × Bool :=
  match dictGet cfg name with
  | some e => (dictSet cfg name (dictSet e "version" (JVal.str "latest")), true)
  | none => (cfg, false)

/-- Method `rollback(name)`: when the component exists and its `locked_version` is
truthy, set `version` to that value and return `True`; otherwise `False`. -/
def rollback (cfg : Config) (name : String) : Config × Bool :=
  match dictGet cfg name with
  | some e =>
      match dictGet e "locked_version" with
      | some locked =>
          if locked.truthy then (dictSet cfg name (dictSet e "version" locked), true)
          else (cfg, false)
      | none => (cfg, false)
  | none => (cfg, false)

/-- Method `is_locked(name)`: `get_version(name) != "latest"`. -/
def isLocked (cfg : Config) (name : String) : Bool :=
  getVersion cfg name ≠ JVal.str "latest"

/-! ### ComponentConfig._load (visp-deploy.py lines 298-322)

The merge loop: for every `(component, default_data)` of the defaults, insert
the default entry when the component is absent from the loaded config,
otherwise backfill only the fields missing from the loaded entry. -/

/-- The inner field loop of `_load`: `for key, value in default_data.items():
if key not in config[component]: config[component][key] = value`.  Appending
the missing default fields after the loaded fields is exactly repeated
dict assignment of absent keys in iteration order. -/
def mergeEntry (loaded defaultData : Entry) : Entry :=
  loaded ++ defaultData.filter (fun kv => (dictGet loaded kv.1).isNone)

/-- One iteration of the outer merge loop of `_load` for a single defaults
item `(component, default_data)`. -/
def mergeStep (cfg : Config) (nd : String × Entry) : Config :=
  match dictGet cfg nd.1 with
  | none => cfg ++ [(nd.1, nd.2)]
  | some e => dictSet cfg nd.1 (mergeEntry e nd.2)

/-- The whole merge loop of `_load` over all defaults items. -/
def mergeConfig (defaults cfg : Config) : Config :=
  defaults.foldl mergeStep cfg

/-- A successfully parsed versions document.  `componentsKey` is the value of
the top-level `"components"` key when present; `_load` reads
`data.get("components", data)`. -/
structure ParsedDoc where
  componentsKey : Option Config
  whole : Config
deriving Repr

/-- Expression `data.get("components", data)`. -/
def extractComponents (d : ParsedDoc) : Config :=
  d.componentsKey.getD d.whole

/-- What `ComponentConfig._load` finds on disk: no file, a file that fails to
parse (`json.JSONDecodeError` / `IOError`), or a parsed document. -/
inductive LoadOutcome
  | absent
  | parseError
  | ok (doc : ParsedDoc)

/-- Method `ComponentConfig._load`: on a missing or unparseable file return a copy of
the defaults; otherwise merge the parsed components mapping with the
defaults. -/
def loadConfig (defaults : Config) : LoadOutcome → Config
  | .absent => defaults
  | .parseError => defaults
  | .ok d => mergeConfig defaults (extractComponents d)

/-! ### ComponentConfig.save (visp-deploy.py lines 324-345)

The filesystem is modelled by the contents of the target path and the list of
timestamped backup files; file contents are modelled by their parsed
component mapping (the `_comment` envelope field is a fixed string).  The
`shutil.copy2` backup step has no surrounding try/except in the source, so a
failing copy raises out of `save` before the new document is written; the
Boolean `copyOk` says whether that copy call succeeds. -/

/-- The filesystem as seen by `ComponentConfig.save`. -/
structure FS where
  target : Option Config
  backups : List (String × Config)
deriving DecidableEq, Repr

/-- Result of a call to `save`: normal return with the new filesystem, or an
uncaught exception leaving the filesystem in the given state. -/
inductive SaveResult
  | ok (fs : FS)
  | raised (fs : FS)
deriving DecidableEq, Repr

def SaveResult.fs : SaveResult → FS
  | .ok fs => fs
  | .raised fs => fs

def SaveResult.isOk : SaveResult → Bool
  | .ok _ => true
  | .raised _ => false

/-- Method `ComponentConfig.save`: when a document exists at the target path, copy it
to `<path>.backup_<timestamp>` (uncaught exception when the copy fails), then
overwrite the target with the new document. -/
def save (fs : FS) (cfg : Config) (ts : String) (copyOk : Bool) : SaveResult :=
  match fs.target with
  | some old =>
      if copyOk then
        SaveResult.ok { target := some cfg, backups := fs.backups ++ [(ts, old)] }
      else
        SaveResult.raised fs
  | none => SaveResult.ok { target := some cfg, backups := fs.backups }

/-! ### GitRepository and the git world it observes

`GitRepository` re-invokes git on every query, so a repository is modelled by
the answers git would give along the straight-line control flow of one
`update_repo` / status call.  `countBetween a b` is
`rev-list --count a..b`, the number of commits reachable from `b` but not
from `a`; git never reports a negative count, hence `Nat` (the raw
parse-and-catch wrapper is modelled separately as `count_commits_between`). -/

/-- Method `get_commit_info` result: `{sha, sha_short, date, subject, author}`. -/
structure CommitInfo where
  sha : String
  shaShort : String
  date : String
  subject : String
  author : String
deriving DecidableEq, Repr

/-- The observable git state of one component repository. -/
structure GitWorld where
  repoExists : Bool
  cloneOk : Bool
  fetchOk : Bool
  headInfo : Option CommitInfo
  dirty : Bool
  currentBranch : Option String
  remoteUrl : Option String
  hasRemoteBranch : String → Bool
  remoteInfo : String → Option CommitInfo
  countBetween : String → String → Nat
  rebaseOk : Bool
  mergeFfOk : Bool
  newHeadInfo : CommitInfo

/-- A git subprocess invocation made by `update_repo`, recorded in order.
`merge` (a plain, possibly non-fast-forward merge) exists in git but is
emitted by no path of the code. -/
inductive GitCmd
  | clone
  | fetch
  | rebase (branch : String)
  | rebaseAbort
  | mergeFf (branch : String)
  | merge (branch : String)
  | checkout (ref : String)
deriving DecidableEq, Repr

/-- Commands that can change which commit the working tree / HEAD is at.
`fetch` only updates remote-tracking refs; `rebase --abort` restores the
pre-rebase state. -/
def GitCmd.movesHead : GitCmd → Bool
  | .fetch => false
  | .rebaseAbort => false
  | _ => true

/-- The status tags produced by `update_repo` (the emoji strings of the
source, as an enumeration). -/
inductive UpdateStatus
  | cloneFailed
  | error
  | locked
  | upToDate
  | uncommitted
  | rebaseFailed
  | updated
  | updateFailed
deriving DecidableEq, Repr

/-- One `update_repo` result record `{name, status, details}`. -/
structure UpdateOutcome where
  name : String
  status : UpdateStatus
  details : String
deriving DecidableEq, Repr

/-- Function `update_repo` from the point where the repository exists on disk
(visp-deploy.py lines 1444-1576).  The outer
`except subprocess.CalledProcessError` turns a failed fetch or a failed
`merge --ff-only` into the UPDATE FAILED outcome. -/
def updateRepoExisting (w : GitWorld) (name version : String) :
    UpdateOutcome × List GitCmd :=
  if ¬ w.fetchOk then
    (⟨name, .updateFailed, "git fetch failed"⟩, [.fetch])
  else
    match w.headInfo with
    | none => (⟨name, .error, "Cannot get commit info"⟩, [.fetch])
    | some cur =>
      if version ≠ "latest" then
        (⟨name, .locked, "Locked at " ++ version.take 8⟩, [.fetch])
      else if w.dirty then
        (⟨name, .uncommitted, "Has local changes"⟩, [.fetch])
      else
        let mainBranch := if w.hasRemoteBranch "main" then "main" else "master"
        match w.remoteInfo mainBranch with
        | none => (⟨name, .error, "Cannot get remote info"⟩, [.fetch])
        | some rem =>
          if cur.sha = rem.sha then
            (⟨name, .upToDate, cur.shaShort⟩, [.fetch])
          else
            let commitsBehind := w.countBetween cur.sha rem.sha
            let commitsAhead := w.countBetween rem.sha cur.sha
            if commitsAhead > 0 then
              if w.rebaseOk then
                (⟨name, .updated,
                  cur.shaShort ++ " → " ++ w.newHeadInfo.shaShort ++ " (" ++
                    toString commitsBehind ++ " commits)"⟩,
                 [.fetch, .rebase mainBranch])
              else
                (⟨name, .rebaseFailed, "Manual merge needed"⟩,
                 [.fetch, .rebase mainBranch, .rebaseAbort])
            else
              if w.mergeFfOk then
                (⟨name, .updated,
                  cur.shaShort ++ " → " ++ w.newHeadInfo.shaShort ++ " (" ++
                    toString commitsBehind ++ " commits)"⟩,
                 [.fetch, .mergeFf mainBranch])
              else
                (⟨name, .updateFailed, "git merge --ff-only failed"⟩,
                 [.fetch, .mergeFf mainBranch])

/-- Full `update_repo`: clone first when the repository directory is missing.
`wClone` is the git world observed in the freshly cloned repository. -/
def updateRepo (w wClone : GitWorld) (name version : String) :
    UpdateOutcome × List GitCmd :=
  if w.repoExists then
    updateRepoExisting w name version
  else if w.cloneOk then
    let r := updateRepoExisting wClone name version
    (r.1, GitCmd.clone :: r.2)
  else
    (⟨name, .cloneFailed, "git clone failed"⟩, [.clone])

/-! ### check_repositories_status sync classification
(visp-deploy.py lines 2392-2449)

The per-repository sync classification: `behind_count` and `ahead_count` are
computed from `count_commits_between` applied to the ref strings exactly as
in the source, then the two sequential `if` statements update the status
variable. -/

inductive SyncStatus
  | synced
  | ahead
  | behind
  | diverged
  | noRemoteBranch
  | localOnly
deriving DecidableEq, Repr

/-- The sync-status classification of one repository in
`check_repositories_status`.  Note the source passes
`count_commits_between("origin/<branch>", "HEAD")` for `behind_count` and
`count_commits_between("HEAD", "origin/<branch>")` for `ahead_count`. -/
def syncClassify (w : GitWorld) : SyncStatus :=
  let branch := w.currentBranch.getD "main"
  match w.remoteUrl with
  | none => SyncStatus.localOnly
  | some _ =>
    if w.hasRemoteBranch branch then
      let behindCount := w.countBetween ("origin/" ++ branch) "HEAD"
      let aheadCount := w.countBetween "HEAD" ("origin/" ++ branch)
      let s1 := if aheadCount > 0 then SyncStatus.ahead else SyncStatus.synced
      if behindCount > 0 then
        (if s1 = SyncStatus.synced then SyncStatus.behind else SyncStatus.diverged)
      else s1
    else SyncStatus.noRemoteBranch

/-! ### GitRepository.count_commits_between, raw
(visp-deploy.py lines 241-253)

`run_git(["rev-list", "--count", f"<from>..<to>"])` either raises
`CalledProcessError` (modelled by `none`) or returns stdout (modelled by
`some s`); the method returns `int(stdout.strip())` with both
`CalledProcessError` and `ValueError` caught and turned into 0. -/

/-- Value of a non-empty all-digit character list read in base 10. -/
def digitsVal (l : List Char) : Nat :=
  l.foldl (fun n c => n * 10 + (c.toNat - 48)) 0

/-- Parse a non-empty all-digit character list, else fail. -/
def parseDigits (l : List Char) : Option Nat :=
  if l ≠ [] ∧ l.all Char.isDigit then some (digitsVal l) else none

/-- Whitespace characters removed by Python `str.strip()`. -/
def isPySpace (c : Char) : Bool :=
  c = ' ' ∨ c = '\n' ∨ c = '\t' ∨ c = '\r'

/-- Python `s.strip()` on the character list of `s`. -/
def pyStrip (l : List Char) : List Char :=
  ((l.dropWhile isPySpace).reverse.dropWhile isPySpace).reverse

/-- Python `int(...)` on a character list: optional sign, then digits. -/
def pyIntOfChars : List Char → Option Int
  | [] => none
  | c :: rest =>
    if c = '-' then (parseDigits rest).map (fun n => -(n : Int))
    else if c = '+' then (parseDigits rest).map (fun n => (n : Int))
    else (parseDigits (c :: rest)).map (fun n => (n : Int))

/-- Python `int(s.strip())`. -/
def pyInt (s : String) : Option Int :=
  pyIntOfChars (pyStrip s.data)

/-- Method `count_commits_between` as a function of the `rev-list --count`
invocation outcome: 0 on a raised `CalledProcessError`, 0 on unparseable
stdout (`ValueError`), otherwise the parsed integer. -/
def count_commits_between (gitOut : Option String) : Int :=
  match gitOut with
  | none => 0
  | some out => (pyInt out).getD 0

/-! ### Batch operations (visp-deploy.py lines 2582-2807)

Each of `lock_components`, `unlock_components` and `rollback_components`
loops over the requested component names, skipping (`continue`) on every
per-component guard or failure, counts the successful in-memory mutations,
and after the loop calls `config.save()` exactly when the count is positive
(wrapped in try/except returning False on a save failure). -/

/-- The per-component git observations the batch operations make. -/
structure CompObs where
  repoExists : Bool
  headInfo : Option CommitInfo
  lockedInfo : Option CommitInfo
  dirty : Bool
  checkoutOk : Bool

/-- Loop body of `lock_components` for one component name. -/
def lockStep (obs : String → CompObs) (acc : Config × Nat) (name : String) :
    Config × Nat :=
  match getComponent acc.1 name with
  | none => acc
  | some e =>
    if e.isEmpty then acc
    else if ¬ (obs name).repoExists then acc
    else
      match (obs name).headInfo with
      | none => acc
      | some info => ((lock acc.1 name info.sha).1, acc.2 + 1)

/-- Loop body of `unlock_components` for one component name. -/
def unlockStep (acc : Config × Nat) (name : String) : Config × Nat :=
  match getComponent acc.1 name with
  | none => acc
  | some e =>
    if e.isEmpty then acc
    else if ¬ isLocked acc.1 name then acc
    else ((unlock acc.1 name).1, acc.2 + 1)

/-- Loop body of `rollback_components` for one component name.  The
`repo.checkout(locked_version)` call precedes `config.rollback(component)`,
so a checkout failure (caught `CalledProcessError`) leaves the config
untouched for this component. -/
def rollbackStep (obs : String → CompObs) (acc : Config × Nat) (name : String) :
    Config × Nat :=
  match getComponent acc.1 name with
  | none => acc
  | some e =>
    if e.isEmpty then acc
    else
      match dictGet e "locked_version" with
      | none => acc
      | some locked =>
        if ¬ locked.truthy then acc
        else if locked = JVal.str "N/A" then acc
        else if ¬ (obs name).repoExists then acc
        else
          match (obs name).headInfo, (obs name).lockedInfo with
          | some cur, some lockedInfo =>
            if cur.sha = lockedInfo.sha then acc
            else if (obs name).dirty then acc
            else if ¬ (obs name).checkoutOk then acc
            else ((rollback acc.1 name).1, acc.2 + 1)
          | _, _ => acc

/-- The shared tail of the three batch operations: run the loop, then call
`config.save()` exactly when at least one component was mutated.  The result
is the final filesystem, the Boolean the function returns, and the number of
`save()` calls made. -/
def runBatch (step : (Config × Nat) → String → (Config × Nat)) (fs : FS)
    (cfg : Config) (names : List String) (ts : String) (copyOk : Bool) :
    FS × Bool × Nat :=
  let r := names.foldl step (cfg, 0)
  if r.2 > 0 then
    match save fs r.1 ts copyOk with
    | .ok fs2 => (fs2, true, 1)
    | .raised fs2 => (fs2, false, 1)
  else (fs, false, 0)

/-- Function `lock_components` (lines 2582-2649). -/
def lockComponents (fs : FS) (cfg : Config) (obs : String → CompObs)
    (names : List String) (ts : String) (copyOk : Bool) : FS × Bool × Nat :=
  runBatch (lockStep obs) fs cfg names ts copyOk

/-- Function `unlock_components` (lines 2652-2701). -/
def unlockComponents (fs : FS) (cfg : Config) (names : List String)
    (ts : String) (copyOk : Bool) : FS × Bool × Nat :=
  runBatch unlockStep fs cfg names ts copyOk

/-- Function `rollback_components` (lines 2704-2807). -/
def rollbackComponents (fs : FS) (cfg : Config) (obs : String → CompObs)
    (names : List String) (ts : String) (copyOk : Bool) : FS × Bool × Nat :=
  runBatch (rollbackStep obs) fs cfg names ts copyOk

/-! ### Concrete stores, documents and git worlds used to instantiate the
theorems -/

/-- Concrete store used to instantiate the C3 round trip. -/
def cfgC3 : Config := [("whisper", [("version", JVal.str "latest")])]

/-- Store refuting C8 as stated: the component exists but its
`locked_version` is the empty string. -/
def cfgC8 : Config :=
  [("whisper", [("version", JVal.str "latest"), ("locked_version", JVal.str "")])]

/-- Store used to instantiate the amended C8 on a rollbackable component. -/
def cfgC8w : Config :=
  [("whisper",
    [("version", JVal.str "latest"), ("locked_version", JVal.str "abc1234")])]

/-- The old on-disk document used in the C6 scenario. -/
def oldDoc : Config := [("whisper", [("version", JVal.str "latest")])]

/-- The new in-memory document being saved in the C6 scenario. -/
def newDoc : Config := [("whisper", [("version", JVal.str "deadbeef")])]

/-- A filesystem in which a document already exists at the target path. -/
def fsC6 : FS := { target := some oldDoc, backups := [] }

/-- Built-in defaults used to instantiate C7. -/
def defaultsC7 : Config :=
  [("whisper", [("version", JVal.str "latest"), ("npm_install", JVal.bool true)]),
   ("octra", [("version", JVal.str "latest")])]

/-- A parsed on-disk document that names only one of the two default
components. -/
def docC7 : ParsedDoc :=
  { componentsKey := some [("whisper", [("version", JVal.str "abc1234")])],
    whole := [] }

/-- Commit info of the local HEAD in the C1 scenario. -/
def infoC1L : CommitInfo :=
  ⟨"aaaa1111", "aaaa111", "2024-01-02 10:00:00 +0000", "local work", "dev"⟩

/-- Commit info of the remote tip in the C1 scenario. -/
def infoC1R : CommitInfo :=
  ⟨"bbbb2222", "bbbb222", "2024-01-01 09:00:00 +0000", "remote tip", "dev"⟩

/-- A git world realizable as: clean unlocked repository whose HEAD is one
commit ahead of origin/main and zero commits behind it
(rev-list --count aaaa1111..bbbb2222 = 0, bbbb2222..aaaa1111 = 1; a rebase
onto the ancestor origin/main succeeds and leaves HEAD where it was). -/
def worldC1 : GitWorld :=
  { repoExists := true, cloneOk := true, fetchOk := true,
    headInfo := some infoC1L, dirty := false,
    currentBranch := some "main",
    remoteUrl := some "https://github.com/humlab-speech/whisper.git",
    hasRemoteBranch := fun b => b == "main",
    remoteInfo := fun b => if b == "main" then some infoC1R else none,
    countBetween := fun a b =>
      if a == "aaaa1111" && b == "bbbb2222" then 0
      else if a == "bbbb2222" && b == "aaaa1111" then 1
      else 0,
    rebaseOk := true, mergeFfOk := true, newHeadInfo := infoC1L }

/-- A locked, clean, existing repository world for the C4 witness. -/
def worldC4 : GitWorld :=
  { repoExists := true, cloneOk := true, fetchOk := true,
    headInfo := some infoC1L, dirty := false,
    currentBranch := some "main",
    remoteUrl := some "https://github.com/humlab-speech/octra.git",
    hasRemoteBranch := fun b => b == "main",
    remoteInfo := fun b => if b == "main" then some infoC1R else none,
    countBetween := fun _ _ => 0,
    rebaseOk := true, mergeFfOk := true, newHeadInfo := infoC1L }

/-- Commit info of the local HEAD in the C5 scenario. -/
def infoC5L : CommitInfo :=
  ⟨"cccc3333", "ccc3333", "2024-02-01 08:00:00 +0000", "old state", "dev"⟩

/-- Commit info of the remote tip in the C5 scenario. -/
def infoC5R : CommitInfo :=
  ⟨"dddd4444", "ddd4444", "2024-02-05 09:00:00 +0000", "new tip", "dev"⟩

/-- A git world realizable as: clean unlocked repository strictly 3 commits
behind origin/main with no local commits
(rev-list --count cccc3333..dddd4444 = 3, dddd4444..cccc3333 = 0); the
fast-forward merge succeeds and leaves HEAD at the remote tip. -/
def worldC5 : GitWorld :=
  { repoExists := true, cloneOk := true, fetchOk := true,
    headInfo := some infoC5L, dirty := false,
    currentBranch := some "main",
    remoteUrl := some "https://github.com/humlab-speech/whisper.git",
    hasRemoteBranch := fun b => b == "main",
    countBetween := fun a b =>
      if a == "cccc3333" && b == "dddd4444" then 3 else 0,
    remoteInfo := fun b => if b == "main" then some infoC5R else none,
    rebaseOk := true, mergeFfOk := true, newHeadInfo := infoC5R }

/-- A git world realizable as: clean repository on branch main with a remote,
strictly 1 commit behind origin/main and 0 ahead
(rev-list --count HEAD..origin/main = 1, origin/main..HEAD = 0). -/
def worldC2 : GitWorld :=
  { repoExists := true, cloneOk := true, fetchOk := true,
    headInfo := some infoC5L, dirty := false,
    currentBranch := some "main",
    remoteUrl := some "https://github.com/humlab-speech/whisper.git",
    hasRemoteBranch := fun b => b == "main",
    remoteInfo := fun b => if b == "main" then some infoC5R else none,
    countBetween := fun a b =>
      if a == "HEAD" && b == "origin/main" then 1 else 0,
    rebaseOk := true, mergeFfOk := true, newHeadInfo := infoC5R }

/-- Per-component observations for the C10 witness: a clean existing
repository at a known commit. -/
def obsC10 : String → CompObs := fun _ =>
  { repoExists := true, headInfo := some infoC5L, lockedInfo := some infoC5L,
    dirty := false, checkoutOk := true }

/-- An initially empty filesystem for the C10 witness. -/
def fsC10 : FS := { target := none, backups := [] }

/-- A store with one unlocked component for the C10 witness. -/
def cfgC10 : Config := [("whisper", [("version", JVal.str "latest")])]

/-! ## Theorems -/

theorem dictGet_dictSet_self {α : Type} (l : List (String × α)) (k : String) (v : α) :
    dictGet (dictSet l k v) k = some v := by
  induction l with
  | nil => simp [dictGet, dictSet]
  | cons p rest ih =>
    by_cases h : p.1 = k
    · simp [dictGet, dictSet, h]
    · simp [dictGet, dictSet, h, ih]

theorem dictGet_dictSet_other {α : Type} (l : List (String × α)) (k k' : String) (v : α)
    (h : k' ≠ k) : dictGet (dictSet l k v) k' = dictGet l k' := by
  have hk : ¬ (k = k') := fun hh => h hh.symm
  induction l with
  | nil => simp [dictGet, dictSet, hk]
  | cons p rest ih =>
    by_cases hp : p.1 = k
    · simp [dictGet, dictSet, hp, hk]
    · by_cases hp' : p.1 = k'
      · simp [dictGet, dictSet, hp, hp', h]
      · simp [dictGet, dictSet, hp, hp', ih]

theorem dictGet_append {α : Type} (l m : List (String × α)) (k : String) :
    dictGet (l ++ m) k =
      match dictGet l k with
      | some v => some v
      | none => dictGet m k := by
  induction l with
  | nil => simp [dictGet]
  | cons p rest ih =>
    by_cases h : p.1 = k
    · simp [dictGet, h]
    · simp [dictGet, h, ih]

/-- A key absent from the key list is absent from the dictionary. -/
theorem dictGet_eq_none_of_not_mem {α : Type} (l : List (String × α)) (k : String)
    (h : k ∉ l.map Prod.fst) : dictGet l k = none := by
  induction l with
  | nil => rfl
  | cons p rest ih =>
    simp only [List.map_cons, List.mem_cons] at h
    push_neg at h
    have hp : ¬ (p.1 = k) := fun hh => h.1 hh.symm
    simp [dictGet, hp, ih h.2]

/-- Claim C3: for every component name present in the store and every SHA,
`lock(name, sha)` followed by `unlock(name)` leaves the component with
`locked_version == sha` and `version == "latest"`; and `unlock` never clears
`locked_version` (third conjunct, for every store and name). -/
theorem c3_lock_unlock_round_trip (cfg : Config) (name sha : String)
    (h : (dictGet cfg name).isSome = true) :
    getVersion (unlock (lock cfg name sha).1 name).1 name = JVal.str "latest" ∧
    getLockedVersion (unlock (lock cfg name sha).1 name).1 name =
      some (JVal.str sha) ∧
    (∀ (cfg' : Config) (m : String),
      getLockedVersion (unlock cfg' m).1 m = getLockedVersion cfg' m) := by
  have hvl : ("locked_version" : String) ≠ "version" := by decide
  refine ⟨?_, ?_, ?_⟩
  · cases hE : dictGet cfg name with
    | none => rw [hE] at h; simp at h
    | some e =>
      simp only [lock, unlock, getVersion, hE, dictGet_dictSet_self]
      simp [dictGet_dictSet_self]
  · cases hE : dictGet cfg name with
    | none => rw [hE] at h; simp at h
    | some e =>
      simp only [lock, unlock, getLockedVersion, hE, dictGet_dictSet_self]
      simp [dictGet_dictSet_self, dictGet_dictSet_other _ _ _ _ hvl]
  · intro cfg' m
    cases hE : dictGet cfg' m with
    | none => simp [unlock, hE]
    | some e =>
      simp only [unlock, getLockedVersion, hE, dictGet_dictSet_self]
      simp [dictGet_dictSet_other _ _ _ _ hvl]

/-- Witness for C3 at a concrete store, component and SHA. -/
theorem c3_witness :
    getVersion (unlock (lock cfgC3 "whisper" "abc123").1 "whisper").1 "whisper" =
      JVal.str "latest" ∧
    getLockedVersion (unlock (lock cfgC3 "whisper" "abc123").1 "whisper").1
      "whisper" = some (JVal.str "abc123") :=
  ⟨(c3_lock_unlock_round_trip cfgC3 "whisper" "abc123" (by decide)).1,
   (c3_lock_unlock_round_trip cfgC3 "whisper" "abc123" (by decide)).2.1⟩

/-- Counterexample to claim C8 as stated: in `cfgC8` the component
`"whisper"` exists in the store, yet `rollback` returns `False` (and leaves
the store unchanged), so the Boolean result does not indicate whether the
named component exists. -/
theorem c8_counterexample :
    (dictGet cfgC8 "whisper").isSome = true ∧
    (rollback cfgC8 "whisper").2 = false ∧
    (rollback cfgC8 "whisper").1 = cfgC8 :=
  ⟨rfl, rfl, rfl⟩

/-- Claim C8, amended: `rollback(name)` returns `True` exactly when the
component exists and its `locked_version` is truthy (non-empty, non-null);
on `False` the store is unchanged; on success `version` is set to the stored
`locked_version`.  The Boolean reports rollback applicability, not bare
existence. -/
theorem c8_rollback_amended (cfg : Config) (name : String) :
    ((rollback cfg name).2 = true ↔
      ∃ e locked, dictGet cfg name = some e ∧
        dictGet e "locked_version" = some locked ∧ locked.truthy = true) ∧
    ((rollback cfg name).2 = false → (rollback cfg name).1 = cfg) ∧
    (∀ (e : Entry) (locked : JVal), dictGet cfg name = some e →
      dictGet e "locked_version" = some locked → locked.truthy = true →
      getVersion (rollback cfg name).1 name = locked) := by
  refine ⟨?_, ?_, ?_⟩
  · constructor
    · intro h
      cases hE : dictGet cfg name with
      | none => simp [rollback, hE] at h
      | some e =>
        cases hL : dictGet e "locked_version" with
        | none => simp [rollback, hE, hL] at h
        | some locked =>
          by_cases ht : locked.truthy = true
          · exact ⟨e, locked, rfl, hL, ht⟩
          · simp [rollback, hE, hL, ht] at h
    · rintro ⟨e, locked, hE, hL, ht⟩
      simp [rollback, hE, hL, ht]
  · intro h
    cases hE : dictGet cfg name with
    | none => simp [rollback, hE]
    | some e =>
      cases hL : dictGet e "locked_version" with
      | none => simp [rollback, hE, hL]
      | some locked =>
        by_cases ht : locked.truthy = true
        · simp [rollback, hE, hL, ht] at h
        · simp [rollback, hE, hL, ht]
  · intro e locked hE hL ht
    simp only [rollback, hE, hL, ht, if_pos]
    simp [getVersion, dictGet_dictSet_self]

/-- Counterexample to claim C6 as stated: with a document present at the
target path and a failing backup copy (`shutil.copy2` raises, and the source
has no try/except around it), `save` raises and the new document is NOT
written - the target still holds the old document. -/
theorem c6_counterexample :
    save fsC6 newDoc "20240101_000000" false = SaveResult.raised fsC6 ∧
    (save fsC6 newDoc "20240101_000000" false).fs.target = some oldDoc ∧
    oldDoc ≠ newDoc :=
  ⟨rfl, rfl, by decide⟩

/-- Claim C6, amended: when a document exists at the target path and the
backup copy succeeds, `save` first records the timestamped backup of the old
document and then writes the new one; but a failure of the backup copy step
raises out of `save` and prevents the new document from being written,
leaving the filesystem unchanged.  With no pre-existing document, `save`
writes without a backup. -/
theorem c6_save_amended (fs : FS) (cfg : Config) (ts : String) :
    (∀ old, fs.target = some old →
      save fs cfg ts true =
        SaveResult.ok { target := some cfg, backups := fs.backups ++ [(ts, old)] }) ∧
    (∀ old, fs.target = some old → save fs cfg ts false = SaveResult.raised fs) ∧
    (fs.target = none →
      save fs cfg ts true = SaveResult.ok { target := some cfg, backups := fs.backups }) := by
  refine ⟨?_, ?_, ?_⟩
  · intro old h; simp [save, h]
  · intro old h; simp [save, h]
  · intro h; simp [save, h]

/-- Witness for the amended C6 at a concrete filesystem: the successful save
backs up the old document and writes the new one. -/
theorem c6_witness :
    save fsC6 newDoc "20240101_000000" true =
      SaveResult.ok { target := some newDoc,
                      backups := [("20240101_000000", oldDoc)] } :=
  (c6_save_amended fsC6 newDoc "20240101_000000").1 oldDoc rfl

/-- Witness for the amended C8 at a concrete store: rollback sets `version`
to the stored locked version. -/
theorem c8_witness :
    getVersion (rollback cfgC8w "whisper").1 "whisper" = JVal.str "abc1234" :=
  (c8_rollback_amended cfgC8w "whisper").2.2
    [("version", JVal.str "latest"), ("locked_version", JVal.str "abc1234")]
    (JVal.str "abc1234") rfl rfl rfl

/-- A field already present in the loaded entry survives the backfill. -/
theorem dictGet_mergeEntry_present (e d : Entry) (k : String) (v : JVal)
    (h : dictGet e k = some v) : dictGet (mergeEntry e d) k = some v := by
  simp [mergeEntry, dictGet_append, h]

/-- Filtering with a predicate that holds on every pair with key `k` does not
change the value found at `k`. -/
theorem dictGet_filter_of_key (e d : Entry) (k : String)
    (h : dictGet e k = none) :
    dictGet (d.filter (fun kv => (dictGet e kv.1).isNone)) k = dictGet d k := by
  induction d with
  | nil => rfl
  | cons p rest ih =>
    by_cases hp : p.1 = k
    · have hq : (dictGet e p.1).isNone = true := by rw [hp, h]; rfl
      simp [List.filter_cons, hq, dictGet, hp, h]
    · by_cases hq : (dictGet e p.1).isNone = true
      · simp [List.filter_cons, hq, dictGet, hp, ih]
      · simp [List.filter_cons, hq, dictGet, hp, ih]

/-- A field missing from the loaded entry is backfilled from the default
entry. -/
theorem dictGet_mergeEntry_absent (e d : Entry) (k : String)
    (h : dictGet e k = none) : dictGet (mergeEntry e d) k = dictGet d k := by
  simp [mergeEntry, dictGet_append, h, dictGet_filter_of_key e d k h]

/-- Complete characterization of the `_load` merge loop: the merged mapping
holds, at each name, the backfilled entry when the name is in both inputs,
the loaded entry when only loaded, the default entry when only in the
defaults. -/
theorem mergeConfig_dictGet (defaults : Config) :
    ∀ (cfg : Config), (defaults.map Prod.fst).Nodup → ∀ n,
    dictGet (mergeConfig defaults cfg) n =
      match dictGet cfg n, dictGet defaults n with
      | some e, some d => some (mergeEntry e d)
      | some e, none => some e
      | none, some d => some d
      | none, none => none := by
  induction defaults with
  | nil =>
    intro cfg _ n
    cases h : dictGet cfg n <;> simp [mergeConfig, dictGet, h]
  | cons nd ds ih =>
    intro cfg hnd n
    have hmc : mergeConfig (nd :: ds) cfg = mergeConfig ds (mergeStep cfg nd) := rfl
    simp only [List.map_cons, List.nodup_cons] at hnd
    have hds0 : dictGet ds nd.1 = none := dictGet_eq_none_of_not_mem _ _ hnd.1
    rw [hmc, ih _ hnd.2 n]
    by_cases hn : nd.1 = n
    · subst hn
      rw [hds0]
      cases hc : dictGet cfg nd.1 with
      | none =>
        have h1 : dictGet (mergeStep cfg nd) nd.1 = some nd.2 := by
          simp [mergeStep, hc, dictGet_append, dictGet]
        rw [h1]
        simp [dictGet]
      | some e =>
        have h1 : dictGet (mergeStep cfg nd) nd.1 = some (mergeEntry e nd.2) := by
          simp [mergeStep, hc, dictGet_dictSet_self]
        rw [h1]
        simp [dictGet]
    · have hne : ¬ (nd.1 = n) := hn
      have h1 : dictGet (mergeStep cfg nd) n = dictGet cfg n := by
        cases hc : dictGet cfg nd.1 with
        | none =>
          rw [mergeStep, hc, dictGet_append]
          cases hcn : dictGet cfg n <;> simp [dictGet, hne]
        | some e =>
          rw [mergeStep, hc]
          exact dictGet_dictSet_other _ _ _ _ (fun hh => hn hh.symm)
      rw [h1]
      have h2 : dictGet (nd :: ds) n = dictGet ds n := by simp [dictGet, hne]
      rw [h2]

/-- Claim C7: `_load` inserts the default entry for every component present
in the defaults but absent from the loaded document, backfills only the
missing fields for components present in both (never overwriting a present
field), and falls back to the defaults on a missing or unparseable file. -/
theorem c7_load_merges_defaults (defaults : Config) (doc : ParsedDoc) (n : String)
    (hnd : (defaults.map Prod.fst).Nodup) :
    (loadConfig defaults LoadOutcome.absent = defaults ∧
     loadConfig defaults LoadOutcome.parseError = defaults) ∧
    (∀ d, dictGet (extractComponents doc) n = none → dictGet defaults n = some d →
      dictGet (loadConfig defaults (LoadOutcome.ok doc)) n = some d) ∧
    (∀ e, dictGet (extractComponents doc) n = some e → dictGet defaults n = none →
      dictGet (loadConfig defaults (LoadOutcome.ok doc)) n = some e) ∧
    (∀ e d, dictGet (extractComponents doc) n = some e →
      dictGet defaults n = some d →
      dictGet (loadConfig defaults (LoadOutcome.ok doc)) n = some (mergeEntry e d) ∧
      (∀ k v, dictGet e k = some v → dictGet (mergeEntry e d) k = some v) ∧
      (∀ k, dictGet e k = none → dictGet (mergeEntry e d) k = dictGet d k)) := by
  refine ⟨⟨rfl, rfl⟩, ?_, ?_, ?_⟩
  · intro d h1 h2
    simp only [loadConfig, mergeConfig_dictGet defaults _ hnd n, h1, h2]
  · intro e h1 h2
    simp only [loadConfig, mergeConfig_dictGet defaults _ hnd n, h1, h2]
  · intro e d h1 h2
    refine ⟨?_, ?_, ?_⟩
    · simp only [loadConfig, mergeConfig_dictGet defaults _ hnd n, h1, h2]
    · intro k v hk; exact dictGet_mergeEntry_present e d k v hk
    · intro k hk; exact dictGet_mergeEntry_absent e d k hk

/-- Witness for C7: a component present in the defaults but absent from the
loaded document appears with exactly its default entry. -/
theorem c7_witness :
    dictGet (loadConfig defaultsC7 (LoadOutcome.ok docC7)) "octra" =
      some [("version", JVal.str "latest")] :=
  (c7_load_merges_defaults defaultsC7 docC7 "octra" (by decide)).2.1
    [("version", JVal.str "latest")] rfl rfl

/-- On a canonical `rev-list --count` output (a non-empty digit string after
stripping), `pyInt` parses it to the non-negative value of its digits. -/
theorem pyInt_of_digits (s : String) (hne : pyStrip s.data ≠ [])
    (hdig : (pyStrip s.data).all Char.isDigit = true) :
    ∃ n : Nat, pyInt s = some (n : Int) := by
  unfold pyInt
  cases hd : pyStrip s.data with
  | nil => exact absurd hd hne
  | cons c rest =>
    rw [hd] at hdig
    simp only [List.all_cons, Bool.and_eq_true] at hdig
    have hc : c.isDigit = true := hdig.1
    have hcm : ¬ (c = '-') := by
      intro h; rw [h] at hc; exact absurd hc (by decide)
    have hcp : ¬ (c = '+') := by
      intro h; rw [h] at hc; exact absurd hc (by decide)
    refine ⟨digitsVal (c :: rest), ?_⟩
    show (if c = '-' then (parseDigits rest).map (fun n => -(n : Int))
      else if c = '+' then (parseDigits rest).map (fun n => (n : Int))
      else (parseDigits (c :: rest)).map (fun n => (n : Int))) =
      some ((digitsVal (c :: rest) : Nat) : Int)
    rw [if_neg hcm, if_neg hcp]
    have hp : parseDigits (c :: rest) = some (digitsVal (c :: rest)) := by
      unfold parseDigits
      rw [if_pos]
      exact ⟨by simp, by simp [List.all_cons, hc, hdig.2]⟩
    rw [hp]
    rfl

/-- Claim C9: `count_commits_between` is total over every invocation outcome
of the underlying `rev-list --count` call; on a canonical git output (the
decimal of a count) it is the count and hence non-negative; it is 0 when the
invocation raises (`CalledProcessError`), 0 when the stdout is unparseable
(`ValueError`), and 0 on the output git prints for an equal or empty
range. -/
theorem c9_count_commits_total (gitOut : Option String)
    (hwf : gitOut = none ∨ ∃ s, gitOut = some s ∧
      pyStrip s.data ≠ [] ∧ (pyStrip s.data).all Char.isDigit = true) :
    0 ≤ count_commits_between gitOut ∧
    count_commits_between none = 0 ∧
    (∀ s, pyInt s = none → count_commits_between (some s) = 0) ∧
    count_commits_between (some "0") = 0 := by
  refine ⟨?_, rfl, ?_, by decide⟩
  · rcases hwf with h | ⟨s, hs, hne, hdig⟩
    · rw [h]; exact le_refl 0
    · rw [hs]
      obtain ⟨n, hn⟩ := pyInt_of_digits s hne hdig
      simp only [count_commits_between, hn, Option.getD_some]
      exact Int.natCast_nonneg n
  · intro s h
    simp [count_commits_between, h]

/-- Witness for C9: on the concrete rev-list output "3" the count is the
non-negative integer 3. -/
theorem c9_witness :
    0 ≤ count_commits_between (some "3") ∧ count_commits_between (some "3") = 3 :=
  ⟨(c9_count_commits_total (some "3")
      (Or.inr ⟨"3", rfl, by decide, by decide⟩)).1,
   by decide⟩

/-- Counterexample to claim C1 as stated: in `worldC1` the component is
unlocked and clean, the repository and the remote branch exist, and the
behind count is 0 - yet `update_repo` reports UPDATED (after the rebase of
the 1 local commit), not UP TO DATE, because the up-to-date test compares
the HEAD and remote SHAs, which differ. -/
theorem c1_counterexample :
    worldC1.countBetween "aaaa1111" "bbbb2222" = 0 ∧
    worldC1.repoExists = true ∧ worldC1.dirty = false ∧
    worldC1.hasRemoteBranch "main" = true ∧
    (updateRepo worldC1 worldC1 "whisper" "latest").1.status =
      UpdateStatus.updated ∧
    (updateRepo worldC1 worldC1 "whisper" "latest").1.status ≠
      UpdateStatus.upToDate := by
  decide

/-- Claim C1, amended: for an unlocked, clean component whose repository and
remote branch exist, `update_repo` reports up-to-date exactly when the
current HEAD SHA equals the remote branch SHA (equivalently
behind == 0 and ahead == 0); when behind == 0 but ahead > 0 it instead
rebases and, on success, reports updated. -/
theorem c1_up_to_date_iff_equal_heads (w wc : GitWorld) (name version : String)
    (cur rem : CommitInfo)
    (hex : w.repoExists = true) (hf : w.fetchOk = true)
    (hh : w.headInfo = some cur) (hv : version = "latest") (hd : w.dirty = false)
    (hr : w.remoteInfo (if w.hasRemoteBranch "main" then "main" else "master") =
      some rem) :
    ((updateRepo w wc name version).1.status = UpdateStatus.upToDate ↔
      cur.sha = rem.sha) ∧
    (cur.sha ≠ rem.sha → w.countBetween cur.sha rem.sha = 0 →
      0 < w.countBetween rem.sha cur.sha → w.rebaseOk = true →
      (updateRepo w wc name version).1.status = UpdateStatus.updated) := by
  subst hv
  have hw : updateRepo w wc name "latest" = updateRepoExisting w name "latest" := by
    simp [updateRepo, hex]
  rw [hw]
  unfold updateRepoExisting
  simp only [hf, hh, hd, hr]
  constructor
  · by_cases hsha : cur.sha = rem.sha
    · simp [hsha]
    · rw [if_neg hsha]
      constructor
      · intro h
        split_ifs at h
      · intro h; exact absurd h hsha
  · intro hsha hbehind hahead hreb
    simp [hsha, hbehind, hahead, hreb]

/-- Witness for the amended C1 at `worldC1`: SHAs differ, behind = 0,
ahead = 1, the rebase succeeds, and the outcome is UPDATED. -/
theorem c1_witness :
    (updateRepo worldC1 worldC1 "whisper" "latest").1.status =
      UpdateStatus.updated :=
  (c1_up_to_date_iff_equal_heads worldC1 worldC1 "whisper" "latest" infoC1L
      infoC1R rfl rfl rfl rfl rfl rfl).2
    (by decide) (by decide) (by decide) rfl

/-- Claim C4: for a component whose configured version is not "latest",
`update_repo` on an existing repository issues only the fetch (a command
that cannot move HEAD or touch the working tree - no checkout, merge or
rebase ever runs), so the HEAD SHA is unchanged; and whenever the fetch and
the HEAD commit-info query succeed it reports LOCKED with the locked SHA in
the details. -/
theorem c4_locked_component_untouched (w wc : GitWorld) (name version : String)
    (hex : w.repoExists = true) (hlock : version ≠ "latest") :
    (updateRepo w wc name version).2 = [GitCmd.fetch] ∧
    (∀ c ∈ (updateRepo w wc name version).2, c.movesHead = false) ∧
    (w.fetchOk = true → ∀ cur, w.headInfo = some cur →
      (updateRepo w wc name version).1.status = UpdateStatus.locked ∧
      (updateRepo w wc name version).1.details = "Locked at " ++ version.take 8) := by
  have hw : updateRepo w wc name version = updateRepoExisting w name version := by
    simp [updateRepo, hex]
  rw [hw]
  unfold updateRepoExisting
  by_cases hf : w.fetchOk = true
  · simp only [hf]
    cases hh : w.headInfo with
    | none =>
      refine ⟨by simp, by simp [GitCmd.movesHead], ?_⟩
      intro _ cur hcur
      exact Option.noConfusion hcur
    | some cur =>
      simp only [if_pos hlock]
      exact ⟨by simp, by simp [GitCmd.movesHead], fun _ _ _ => ⟨rfl, rfl⟩⟩
  · have hf' : w.fetchOk = false := by
      cases hb : w.fetchOk
      · rfl
      · exact absurd hb hf
    simp only [hf']
    refine ⟨by simp, by simp [GitCmd.movesHead], ?_⟩
    intro hft
    exact Bool.noConfusion hft

/-- Witness for C4 at a concrete locked world: only the fetch runs and the
outcome is LOCKED with the locked SHA prefix in the details. -/
theorem c4_witness :
    (updateRepo worldC4 worldC4 "octra" "abc1234def").2 = [GitCmd.fetch] ∧
    (updateRepo worldC4 worldC4 "octra" "abc1234def").1.status =
      UpdateStatus.locked ∧
    (updateRepo worldC4 worldC4 "octra" "abc1234def").1.details =
      "Locked at abc1234d" := by
  have h := c4_locked_component_untouched worldC4 worldC4 "octra" "abc1234def"
    rfl (by decide)
  have h3 := h.2.2 rfl infoC1L rfl
  exact ⟨h.1, h3.1, h3.2⟩

/-- Claim C5: for an unlocked, clean component with ahead == 0 and
behind > 0, `update_repo` performs the fast-forward-only merge (no rebase
and no plain merge appears among the issued commands) and reports UPDATED
with details holding the before and after short SHAs and the behind count,
which therefore occurs as a substring of the details. -/
theorem c5_ff_only_merge (w wc : GitWorld) (name : String) (cur rem : CommitInfo)
    (hex : w.repoExists = true) (hf : w.fetchOk = true)
    (hh : w.headInfo = some cur) (hd : w.dirty = false)
    (hr : w.remoteInfo (if w.hasRemoteBranch "main" then "main" else "master") =
      some rem)
    (hrefl : ∀ s, w.countBetween s s = 0)
    (hahead : w.countBetween rem.sha cur.sha = 0)
    (hbehind : 0 < w.countBetween cur.sha rem.sha)
    (hff : w.mergeFfOk = true) :
    (updateRepo w wc name "latest").1.status = UpdateStatus.updated ∧
    (updateRepo w wc name "latest").2 =
      [GitCmd.fetch,
       GitCmd.mergeFf (if w.hasRemoteBranch "main" then "main" else "master")] ∧
    (∀ b, GitCmd.rebase b ∉ (updateRepo w wc name "latest").2) ∧
    (∀ b, GitCmd.merge b ∉ (updateRepo w wc name "latest").2) ∧
    (updateRepo w wc name "latest").1.details =
      cur.shaShort ++ " → " ++ w.newHeadInfo.shaShort ++ " (" ++
        toString (w.countBetween cur.sha rem.sha) ++ " commits)" ∧
    (toString (w.countBetween cur.sha rem.sha)).data <:+:
      (updateRepo w wc name "latest").1.details.data := by
  have hsha : ¬ (cur.sha = rem.sha) := by
    intro hcontra
    rw [hcontra] at hbehind
    rw [hrefl rem.sha] at hbehind
    exact absurd hbehind (by simp)
  have hw : updateRepo w wc name "latest" = updateRepoExisting w name "latest" := by
    simp [updateRepo, hex]
  have hrun : updateRepo w wc name "latest" =
      (⟨name, .updated,
        cur.shaShort ++ " → " ++ w.newHeadInfo.shaShort ++ " (" ++
          toString (w.countBetween cur.sha rem.sha) ++ " commits)"⟩,
       [GitCmd.fetch,
        GitCmd.mergeFf (if w.hasRemoteBranch "main" then "main" else "master")]) := by
    rw [hw]
    unfold updateRepoExisting
    simp [hf, hh, hd, hr, hsha, hahead, hff]
  refine ⟨by rw [hrun], by rw [hrun], ?_, ?_, by rw [hrun], ?_⟩
  · intro b
    rw [hrun]
    simp
  · intro b
    rw [hrun]
    simp
  · rw [hrun]
    refine ⟨(cur.shaShort ++ " → " ++ w.newHeadInfo.shaShort ++ " (").data,
      (" commits)" : String).data, ?_⟩
    simp [String.data_append]

/-- Witness for C5 at `worldC5` (behind = 3, ahead = 0): the outcome is
UPDATED, the issued commands are exactly fetch then merge --ff-only, and the
details contain the substring "3". -/
theorem c5_witness :
    (updateRepo worldC5 worldC5 "whisper" "latest").1.status =
      UpdateStatus.updated ∧
    (updateRepo worldC5 worldC5 "whisper" "latest").2 =
      [GitCmd.fetch, GitCmd.mergeFf "main"] ∧
    ("3" : String).data <:+:
      (updateRepo worldC5 worldC5 "whisper" "latest").1.details.data := by
  have hrefl : ∀ s, worldC5.countBetween s s = 0 := by
    intro s
    show (if s == "cccc3333" && s == "dddd4444" then 3 else 0) = 0
    by_cases h : s = "cccc3333"
    · subst h; rfl
    · have : (s == "cccc3333") = false := by
        simp [h]
      simp [this]
  have h := c5_ff_only_merge worldC5 worldC5 "whisper" infoC5L infoC5R
    rfl rfl rfl rfl rfl hrefl (by decide) (by decide) rfl
  exact ⟨h.1, h.2.1, h.2.2.2.2.2⟩

/-- Claim C2, evaluated at the failing input: in `worldC2` the repository is
strictly behind its remote (1 commit reachable from origin/main but not from
HEAD, none the other way), yet `check_repositories_status` classifies it
AHEAD, because it passes the ref arguments to `count_commits_between` in the
opposite order to `update_repo`: it uses count(origin/main..HEAD) as the
behind count and count(HEAD..origin/main) as the ahead count. -/
theorem c2_status_swaps_ahead_behind :
    worldC2.countBetween "HEAD" "origin/main" = 1 ∧
    worldC2.countBetween "origin/main" "HEAD" = 0 ∧
    syncClassify worldC2 = SyncStatus.ahead ∧
    syncClassify worldC2 ≠ SyncStatus.behind := by
  decide

/-- The shared batch tail: the number of `save()` calls is 1 when at least
one component was mutated and 0 otherwise; with no mutation the filesystem
is returned untouched and the function returns False; with a mutation and a
succeeding backup step the target ends up holding the configuration
produced by the whole loop. -/
theorem runBatch_spec (step : (Config × Nat) → String → (Config × Nat)) (fs : FS)
    (cfg : Config) (names : List String) (ts : String) (copyOk : Bool) :
    (runBatch step fs cfg names ts copyOk).2.2 =
      (if 0 < (names.foldl step (cfg, 0)).2 then 1 else 0) ∧
    ((names.foldl step (cfg, 0)).2 = 0 →
      runBatch step fs cfg names ts copyOk = (fs, false, 0)) ∧
    (0 < (names.foldl step (cfg, 0)).2 → copyOk = true →
      (runBatch step fs cfg names ts copyOk).1.target =
        some (names.foldl step (cfg, 0)).1) := by
  by_cases h : 0 < (names.foldl step (cfg, 0)).2
  · refine ⟨?_, ?_, ?_⟩
    · simp only [runBatch]
      rw [if_pos h, if_pos h]
      cases hs : save fs (names.foldl step (cfg, 0)).1 ts copyOk <;> simp
    · intro h0; rw [h0] at h; exact absurd h (by simp)
    · intro _ hcopy
      subst hcopy
      simp only [runBatch]
      rw [if_pos h]
      cases ht : fs.target <;> simp [save, ht]
  · have h0 : (names.foldl step (cfg, 0)).2 = 0 := Nat.eq_zero_of_not_pos h
    refine ⟨?_, ?_, ?_⟩
    · simp only [runBatch]
      rw [if_neg h, if_neg h]
    · intro _
      simp only [runBatch]
      rw [if_neg h]
    · intro hpos; exact absurd hpos h

/-- Claim C10: each of `lock_components`, `unlock_components` and
`rollback_components` calls `save()` at most once (the call count is 1 when
at least one component was mutated, 0 otherwise), only after processing
every requested component (the saved document is the configuration produced
by the whole loop), and when every component is skipped or fails the
function returns False with the persisted file untouched. -/
theorem c10_batch_saves_once (fs : FS) (cfg : Config) (obs : String → CompObs)
    (names : List String) (ts : String) (copyOk : Bool) :
    ((lockComponents fs cfg obs names ts copyOk).2.2 =
        (if 0 < (names.foldl (lockStep obs) (cfg, 0)).2 then 1 else 0) ∧
      ((names.foldl (lockStep obs) (cfg, 0)).2 = 0 →
        lockComponents fs cfg obs names ts copyOk = (fs, false, 0)) ∧
      (0 < (names.foldl (lockStep obs) (cfg, 0)).2 → copyOk = true →
        (lockComponents fs cfg obs names ts copyOk).1.target =
          some (names.foldl (lockStep obs) (cfg, 0)).1)) ∧
    ((unlockComponents fs cfg names ts copyOk).2.2 =
        (if 0 < (names.foldl unlockStep (cfg, 0)).2 then 1 else 0) ∧
      ((names.foldl unlockStep (cfg, 0)).2 = 0 →
        unlockComponents fs cfg names ts copyOk = (fs, false, 0)) ∧
      (0 < (names.foldl unlockStep (cfg, 0)).2 → copyOk = true →
        (unlockComponents fs cfg names ts copyOk).1.target =
          some (names.foldl unlockStep (cfg, 0)).1)) ∧
    ((rollbackComponents fs cfg obs names ts copyOk).2.2 =
        (if 0 < (names.foldl (rollbackStep obs) (cfg, 0)).2 then 1 else 0) ∧
      ((names.foldl (rollbackStep obs) (cfg, 0)).2 = 0 →
        rollbackComponents fs cfg obs names ts copyOk = (fs, false, 0)) ∧
      (0 < (names.foldl (rollbackStep obs) (cfg, 0)).2 → copyOk = true →
        (rollbackComponents fs cfg obs names ts copyOk).1.target =
          some (names.foldl (rollbackStep obs) (cfg, 0)).1)) :=
  ⟨runBatch_spec (lockStep obs) fs cfg names ts copyOk,
   runBatch_spec unlockStep fs cfg names ts copyOk,
   runBatch_spec (rollbackStep obs) fs cfg names ts copyOk⟩

/-- Witness for C10: locking one component mutates it, so the final
filesystem holds the configuration produced by the whole loop (and, by the
first conjunct, exactly one save happened); on the same store a
rollback-all is an all-skip (no `locked_version`), so no save is made and
the filesystem is untouched. -/
theorem c10_witness :
    (lockComponents fsC10 cfgC10 obsC10 ["whisper"] "20240101_000000" true).1.target =
      some ((["whisper"].foldl (lockStep obsC10) (cfgC10, 0)).1) ∧
    rollbackComponents fsC10 cfgC10 obsC10 ["whisper"] "20240101_000000" true =
      (fsC10, false, 0) :=
  ⟨(c10_batch_saves_once fsC10 cfgC10 obsC10 ["whisper"] "20240101_000000"
      true).1.2.2 (by decide) rfl,
   (c10_batch_saves_once fsC10 cfgC10 obsC10 ["whisper"] "20240101_000000"
      true).2.2.2.1 (by decide)⟩

end VispDeploy
